import Mathlib

/-!
Verification development for the crime-safety routing application.

The Python sources are shallowly embedded: pure functions become Lean
functions, pandas row operations become operations on lists of records,
machine floats become exact rationals (`ℚ`), and the transcendental
`sin`/`cos` detour shaping is abstracted by arbitrary function parameters
(the proved facts hold for every interpretation of them).  A distance
comparison `sqrt (dx^2 + dy^2) < r` is embedded as the equivalent
`dx*dx + dy*dy < r*r` (both sides are nonnegative, so squaring preserves
the strict inequality).
-/

namespace CrimeSafetyApp

/-- The three categorical route risk levels used across the code base
(`'low_risk'`, `'medium_risk'`, `'high_risk'`). -/
inductive RiskLevel where
  | low_risk
  | medium_risk
  | high_risk
deriving DecidableEq, Repr

/-- Keys of the route dictionaries built by `free_api_utils`
(`get_free_osrm_routes` / `generate_simulated_routes` always use exactly
these three keys). -/
inductive RouteKey where
  | high_risk
  | medium_risk
  | low_risk
deriving DecidableEq, Repr

/-- A geographic point.  Route coordinates in the code are stored as
`[lon, lat]` pairs; we keep that convention: `.1` is the longitude and
`.2` is the latitude of a route point. -/
abbrev GeoPoint := ℚ × ℚ

/-- One incident record: the columns `LAT`, `LON` and the severity
`Cluster` (0 = high, 1 = medium, 2 = low) that the classifiers assign. -/
structure CrimeRecord where
  lat : ℚ
  lon : ℚ
  cluster : Nat
deriving DecidableEq, Repr

/-! ### Severity keyword classification
`utils_maps.classify_advanced_crime_severity` and
`free_api_utils.classify_crime_severity`.  The Python membership test
`keyword in crime_desc` is embedded as a substring test on character
lists. -/

/-- Substring test, the embedding of Python's `needle in haystack`. -/
def containsSub (needle : List Char) : List Char → Bool
  | [] => needle.isEmpty
  | c :: rest => needle.isPrefixOf (c :: rest) || containsSub needle rest

/-- `utils_maps`: High-severity keyword list. -/
def high_severity_keywords : List (List Char) :=
  ["ROBBERY".toList, "ASSAULT".toList, "BURGLARY".toList, "RAPE".toList,
   "HOMICIDE".toList, "MURDER".toList, "KIDNAPPING".toList, "ARSON".toList,
   "SHOTS FIRED".toList, "CRIMINAL THREATS".toList, "BATTERY".toList,
   "INTIMATE PARTNER".toList, "CHILD ABUSE".toList, "WEAPONS".toList]

/-- `utils_maps`: Medium-severity keyword list. -/
def medium_severity_keywords : List (List Char) :=
  ["THEFT".toList, "VANDALISM".toList, "FRAUD".toList, "SHOPLIFTING".toList,
   "VEHICLE".toList, "STOLEN".toList, "TRESPASSING".toList,
   "PICKPOCKET".toList, "BURGLARY TOOLS".toList, "FORGERY".toList,
   "EMBEZZLEMENT".toList, "BRIBERY".toList]

/-- Does the (upper-cased) description match some `utils_maps`
high-severity keyword? -/
def advHigh (crime_desc : List Char) : Bool :=
  high_severity_keywords.any fun k => containsSub k (crime_desc.map Char.toUpper)

/-- Does the (upper-cased) description match some `utils_maps`
medium-severity keyword? -/
def advMed (crime_desc : List Char) : Bool :=
  medium_severity_keywords.any fun k => containsSub k (crime_desc.map Char.toUpper)

/-- `utils_maps.classify_advanced_crime_severity`: 0 = high (red),
1 = medium (yellow), 2 = low (green).  High keywords are tested first,
then medium, otherwise low. -/
def classify_advanced_crime_severity (crime_desc : List Char) : Nat :=
  if advHigh crime_desc then 0
  else if advMed crime_desc then 1
  else 2

/-- `free_api_utils`: the `serious_crimes` keyword list. -/
def serious_crimes : List (List Char) :=
  ["ROBBERY".toList, "ASSAULT".toList, "BURGLARY".toList, "RAPE".toList,
   "HOMICIDE".toList, "KIDNAPPING".toList, "ARSON".toList,
   "SHOTS FIRED".toList, "CRIMINAL THREATS".toList]

/-- `free_api_utils`: the `medium_crimes` keyword list. -/
def medium_crimes : List (List Char) :=
  ["THEFT".toList, "VANDALISM".toList, "FRAUD".toList, "BATTERY".toList,
   "SHOPLIFTING".toList, "VEHICLE".toList, "STOLEN".toList,
   "TRESPASSING".toList]

/-- Does the (upper-cased) description match some `free_api_utils`
serious-crime keyword? -/
def apiHigh (crime_desc : List Char) : Bool :=
  serious_crimes.any fun k => containsSub k (crime_desc.map Char.toUpper)

/-- Does the (upper-cased) description match some `free_api_utils`
medium-crime keyword? -/
def apiMed (crime_desc : List Char) : Bool :=
  medium_crimes.any fun k => containsSub k (crime_desc.map Char.toUpper)

/-- `free_api_utils.classify_crime_severity`: serious keywords first,
then medium, otherwise low. -/
def classify_crime_severity (crime_desc : List Char) : Nat :=
  if apiHigh crime_desc then 0
  else if apiMed crime_desc then 1
  else 2

/-! ### Time-of-day bucketing (`data_preprocess.add_time_of_day`) -/

/-- The `Time of Day` categories produced by `add_time_of_day`
(`'Unknown'` is its fallback when the `TIME OCC` column is missing or the
whole computation fails). -/
inductive TimeOfDay where
  | Morning
  | Afternoon
  | Evening
  | Night
  | Unknown
deriving DecidableEq, Repr

/-- The `np.select` bucketing of `add_time_of_day`: `[6,12)` Morning,
`[12,16)` Afternoon, `[16,18)` Evening, default Night. -/
def timeOfDayOfHour (h : Nat) : TimeOfDay :=
  if 6 ≤ h ∧ h < 12 then .Morning
  else if 12 ≤ h ∧ h < 16 then .Afternoon
  else if 16 ≤ h ∧ h < 18 then .Evening
  else .Night

/-- Python's `str.zfill(4)`: left-pad with character `'0'` to length 4. -/
def zfill4 (s : List Char) : List Char :=
  if 4 ≤ s.length then s else List.replicate (4 - s.length) '0' ++ s

/-- The hour extraction `int(time_str[:2])` on the zero-filled time
string, returning `none` when the two leading characters are not digits
(Python raises `ValueError` there). -/
def twoDigitHour (s : List Char) : Option Nat :=
  match (zfill4 s).take 2 with
  | [c1, c2] =>
      if c1.isDigit ∧ c2.isDigit then
        some ((c1.toNat - '0'.toNat) * 10 + (c2.toNat - '0'.toNat))
      else none
  | _ => none

/-- The hour actually used per record: on a parse failure the code sets
`df['Time_occ_hour'] = 12` (its comment: Default to noon). -/
def hourOfTimeField (s : List Char) : Nat :=
  (twoDigitHour s).getD 12

/-- `add_time_of_day` for one record.  `none` models the case that the
`TIME OCC` column is absent, where the code assigns the literal category
`'Unknown'`; otherwise the bucket of the (possibly defaulted) hour. -/
def add_time_of_day : Option (List Char) → TimeOfDay
  | none => .Unknown
  | some s => timeOfDayOfHour (hourOfTimeField s)

/-! ### Route crime exposure (`utils_maps.calculate_detailed_crime_exposure`) -/

/-- The configurable proximity thresholds (defaults 0.003 / 0.005 / 0.008
degrees). -/
structure ProximityThresholds where
  high_crime : ℚ
  medium_crime : ℚ
  low_crime : ℚ
deriving DecidableEq, Repr

/-- The default thresholds built when `proximity_thresholds is None`. -/
def defaultProximityThresholds : ProximityThresholds :=
  { high_crime := 3/1000, medium_crime := 5/1000, low_crime := 8/1000 }

/-- The `LAT`/`LON` pairs of the records in a given severity cluster. -/
def clusterPoints (crime_df : List CrimeRecord) (c : Nat) : List (ℚ × ℚ) :=
  (crime_df.filter fun r => r.cluster == c).map fun r => (r.lat, r.lon)

/-- Is the route point `pt = (lon, lat)` strictly within `radius` of some
point in `pts` (each a `(LAT, LON)` pair)?  Embeds
`np.any(np.sqrt(np.sum((pts - [lat, lon])**2, axis=1)) < radius)` with
the square root removed by squaring both sides. -/
def withinRadius (pts : List (ℚ × ℚ)) (pt : GeoPoint) (radius : ℚ) : Bool :=
  pts.any fun p =>
    decide ((p.1 - pt.2) * (p.1 - pt.2) + (p.2 - pt.1) * (p.2 - pt.1)
      < radius * radius)

/-- Loop body of the exposure analysis: the point counts as a high-crime
segment when near a cluster-0 incident. -/
def isHighSeg (crime_df : List CrimeRecord) (th : ProximityThresholds)
    (pt : GeoPoint) : Bool :=
  withinRadius (clusterPoints crime_df 0) pt th.high_crime

/-- The point counts as a medium-crime segment when it was not already
classified high and is near a cluster-1 incident. -/
def isMediumSeg (crime_df : List CrimeRecord) (th : ProximityThresholds)
    (pt : GeoPoint) : Bool :=
  !isHighSeg crime_df th pt
    && withinRadius (clusterPoints crime_df 1) pt th.medium_crime

/-- The point counts as safe when no crime exposure was detected. -/
def isSafeSeg (crime_df : List CrimeRecord) (th : ProximityThresholds)
    (pt : GeoPoint) : Bool :=
  !isHighSeg crime_df th pt
    && !withinRadius (clusterPoints crime_df 1) pt th.medium_crime

/-- The categorical risk policy hard-coded in
`calculate_detailed_crime_exposure` (utils_maps lines 139-145): note the
medium tier tests `medium_crime_percentage` alone, not the combined
percentage. -/
def utils_risk_level (high_pct medium_pct : ℚ) : RiskLevel :=
  if high_pct > 15 then .high_risk
  else if high_pct > 5 ∨ medium_pct > 30 then .medium_risk
  else .low_risk

/-- The dictionary returned by `calculate_detailed_crime_exposure`. -/
structure ExposureProfile where
  high_crime_segments : Nat
  medium_crime_segments : Nat
  safe_segments : Nat
  total_segments : Nat
  high_crime_percentage : ℚ
  medium_crime_percentage : ℚ
  safe_percentage : ℚ
  overall_risk_score : Nat
  risk_level : RiskLevel
deriving DecidableEq, Repr

/-- `utils_maps.calculate_detailed_crime_exposure`.  The first branch is
the early return for a `None`/empty crime frame or empty route (note it
reports `safe_segments = 0` and `safe_percentage = 0`). -/
def calculate_detailed_crime_exposure (route_coords : List GeoPoint)
    (crime_df : List CrimeRecord) (th : ProximityThresholds) :
    ExposureProfile :=
  if crime_df.isEmpty || route_coords.isEmpty then
    { high_crime_segments := 0
      medium_crime_segments := 0
      safe_segments := 0
      total_segments := route_coords.length
      high_crime_percentage := 0
      medium_crime_percentage := 0
      safe_percentage := 0
      overall_risk_score := 0
      risk_level := .low_risk }
  else
    let hseg := route_coords.countP (isHighSeg crime_df th)
    let mseg := route_coords.countP (isMediumSeg crime_df th)
    let sseg := route_coords.countP (isSafeSeg crime_df th)
    let total := route_coords.length
    let hpct : ℚ := if 0 < total then ((hseg : ℚ) / (total : ℚ)) * 100 else 0
    let mpct : ℚ := if 0 < total then ((mseg : ℚ) / (total : ℚ)) * 100 else 0
    let spct : ℚ := if 0 < total then ((sseg : ℚ) / (total : ℚ)) * 100 else 0
    { high_crime_segments := hseg
      medium_crime_segments := mseg
      safe_segments := sseg
      total_segments := total
      high_crime_percentage := hpct
      medium_crime_percentage := mpct
      safe_percentage := spct
      overall_risk_score := hseg * 3 + mseg * 1 + sseg * 0
      risk_level := utils_risk_level hpct mpct }

/-! ### `free_api_utils` exposure analysis and safety level -/

/-- The dictionary returned by
`free_api_utils.analyze_route_crime_exposure`.  On the degenerate early
return (empty crime frame or empty route) the percentage keys are simply
absent from the Python dict; they are embedded as `Option` fields that
are `none` there. -/
structure CrimeExposure where
  high_crime_exposure : Nat
  medium_crime_exposure : Nat
  total_segments : Nat
  high_crime_percentage : Option ℚ
  medium_crime_percentage : Option ℚ
deriving DecidableEq, Repr

/-- Loop body: near a cluster-0 incident within the single
`proximity_threshold`. -/
def apiHighSeg (crime_df : List CrimeRecord) (threshold : ℚ)
    (pt : GeoPoint) : Bool :=
  withinRadius (clusterPoints crime_df 0) pt threshold

/-- Loop body: not near high (the loop `continue`s after a high hit) and
near a cluster-1 incident within the same threshold. -/
def apiMediumSeg (crime_df : List CrimeRecord) (threshold : ℚ)
    (pt : GeoPoint) : Bool :=
  !apiHighSeg crime_df threshold pt
    && withinRadius (clusterPoints crime_df 1) pt threshold

/-- `free_api_utils.analyze_route_crime_exposure` (default threshold
0.005). -/
def analyze_route_crime_exposure (route_coords : List GeoPoint)
    (crime_df : List CrimeRecord) (threshold : ℚ) : CrimeExposure :=
  if crime_df.isEmpty || route_coords.isEmpty then
    { high_crime_exposure := 0
      medium_crime_exposure := 0
      total_segments := route_coords.length
      high_crime_percentage := none
      medium_crime_percentage := none }
  else
    let hseg := route_coords.countP (apiHighSeg crime_df threshold)
    let mseg := route_coords.countP (apiMediumSeg crime_df threshold)
    let total := route_coords.length
    { high_crime_exposure := hseg
      medium_crime_exposure := mseg
      total_segments := total
      high_crime_percentage := some (((hseg : ℚ) / (total : ℚ)) * 100)
      medium_crime_percentage := some (((mseg : ℚ) / (total : ℚ)) * 100) }

/-- The threshold policy of
`free_api_utils.determine_route_safety_level`, as a pure function of the
two percentages it reads. -/
def determine_safety_from_pcts (high_percentage medium_percentage : ℚ) :
    RiskLevel :=
  if high_percentage > 10 then .high_risk
  else if high_percentage > 3 ∨ high_percentage + medium_percentage > 20 then
    .medium_risk
  else .low_risk

/-- `free_api_utils.determine_route_safety_level` on an exposure dict;
`none` embeds the `KeyError` Python would raise when the percentage keys
are absent (degenerate exposure dict). -/
def determine_route_safety_level (e : CrimeExposure) : Option RiskLevel :=
  match e.high_crime_percentage, e.medium_crime_percentage with
  | some hp, some mp => some (determine_safety_from_pcts hp mp)
  | _, _ => none

/-- The canonical risk-level policy exactly as the specification words
it.  Modelled from the spec: High if `high_pct > H_high` or
`(high_pct+medium_pct) > T_high`; Medium if `high_pct > H_med` or
`(high_pct+medium_pct) > T_med`; else Low.  Used only to compare the
source classifiers against the spec. -/
def canonical_policy (hHigh hMed tHigh tMed high_pct medium_pct : ℚ) :
    RiskLevel :=
  if high_pct > hHigh ∨ high_pct + medium_pct > tHigh then .high_risk
  else if high_pct > hMed ∨ high_pct + medium_pct > tMed then .medium_risk
  else .low_risk

/-! ### Simulated routes (`free_api_utils.generate_simulated_routes`) -/

/-- Travel modes; `mode_params.get(travel_mode, mode_params["driving"])`
means any unknown mode behaves like driving, so the enum is exhaustive. -/
inductive TravelMode where
  | driving
  | walking
  | cycling
deriving DecidableEq, Repr

/-- Per-mode parameters of `generate_simulated_routes`. -/
structure ModeParams where
  waypoints : Nat
  curve_factor : ℚ
  speed_factor : ℚ
deriving DecidableEq, Repr

/-- The `mode_params` table. -/
def mode_params : TravelMode → ModeParams
  | .driving => { waypoints := 15, curve_factor := 1/1000, speed_factor := 1 }
  | .walking => { waypoints := 25, curve_factor := 15/10000, speed_factor := 2/10 }
  | .cycling => { waypoints := 20, curve_factor := 12/10000, speed_factor := 4/10 }

section Trig

-- The trigonometric shaping functions (`math.sin`, `math.cos`) and the
-- constant `math.pi` are abstracted: every theorem below holds for any
-- interpretation of them.
variable (sinQ cosQ : ℚ → ℚ) (piQ : ℚ)

/-- One point of the direct (high-risk) simulated route: plain linear
interpolation between start and end, appended as `[lon, lat]`.  `s` and
`e` are `(lat, lon)` pairs as unpacked from `start_coords`/`end_coords`. -/
def simDirectPoint (s e : ℚ × ℚ) (w : Nat) (i : Nat) : GeoPoint :=
  let progress : ℚ := (i : ℚ) / (w : ℚ)
  (s.2 + (e.2 - s.2) * progress, s.1 + (e.1 - s.1) * progress)

/-- One point of the balanced (medium-risk) simulated route: the lateral
curve is applied only for `0.2 <= progress <= 0.8`. -/
def simBalancedPoint (cf : ℚ) (s e : ℚ × ℚ) (w : Nat) (i : Nat) : GeoPoint :=
  let progress : ℚ := (i : ℚ) / (w : ℚ)
  let lat := s.1 + (e.1 - s.1) * progress
  let lon := s.2 + (e.2 - s.2) * progress
  if 2/10 ≤ progress ∧ progress ≤ 8/10 then
    (lon + cf * cosQ (progress * piQ * (15/10)),
     lat + cf * sinQ (progress * piQ * 2))
  else (lon, lat)

/-- One point of the safe (low-risk) simulated route: doubled detour
factor, applied only for `0.1 <= progress <= 0.9`. -/
def simSafePoint (cf : ℚ) (s e : ℚ × ℚ) (w : Nat) (i : Nat) : GeoPoint :=
  let progress : ℚ := (i : ℚ) / (w : ℚ)
  let lat := s.1 + (e.1 - s.1) * progress
  let lon := s.2 + (e.2 - s.2) * progress
  let df := cf * 2
  if 1/10 ≤ progress ∧ progress ≤ 9/10 then
    (lon + df * cosQ (progress * piQ * 2),
     lat + df * sinQ (progress * piQ * 3))
  else (lon, lat)

/-- `free_api_utils.generate_simulated_routes`: always returns the three
routes `high_risk` (direct), `medium_risk` (balanced), `low_risk`
(safe), each with `waypoints + 1` points. -/
def generate_simulated_routes (start_coords end_coords : ℚ × ℚ)
    (travel_mode : TravelMode) : List (RouteKey × List GeoPoint) :=
  let params := mode_params travel_mode
  let w := params.waypoints
  let cf := params.curve_factor
  [(.high_risk, (List.range (w + 1)).map (simDirectPoint start_coords end_coords w)),
   (.medium_risk, (List.range (w + 1)).map
      (simBalancedPoint sinQ cosQ piQ cf start_coords end_coords w)),
   (.low_risk, (List.range (w + 1)).map
      (simSafePoint sinQ cosQ piQ cf start_coords end_coords w))]

/-- The OSRM step of `free_api_utils.compute_and_display_safe_route`:
`routes` is `None` exactly when the routing service call failed, and the
code then falls back to `generate_simulated_routes` instead of raising. -/
def osrm_routes_with_fallback
    (osrm_result : Option (List (RouteKey × List GeoPoint)))
    (start_coords end_coords : ℚ × ℚ) (travel_mode : TravelMode) :
    List (RouteKey × List GeoPoint) :=
  match osrm_result with
  | some routes => routes
  | none => generate_simulated_routes sinQ cosQ piQ start_coords end_coords travel_mode

end Trig

/-- The `maximum_safety` filtering step of
`free_api_utils.compute_and_display_safe_route` (lines 750-763): keep
the routes whose safety level is low or medium, then
`routes = filtered_routes if filtered_routes else routes`. -/
def filter_routes_maximum_safety (routes : List (RouteKey × List GeoPoint))
    (crime_df : List CrimeRecord) : List (RouteKey × List GeoPoint) :=
  let filtered := routes.filter fun kv =>
    !kv.2.isEmpty &&
      match determine_route_safety_level
          (analyze_route_crime_exposure kv.2 crime_df (5/1000)) with
      | some .low_risk => true
      | some .medium_risk => true
      | _ => false
  if filtered.isEmpty then routes else filtered

/-! ### Route synthesis and safety-filtered selection
(`utils_maps.generate_safety_filtered_routes`) -/

/-- The names of the eight synthesized route patterns. -/
inductive PatternName where
  | direct
  | northern_arc
  | southern_arc
  | eastern_detour
  | western_detour
  | conservative
  | scenic_route
  | highway_style
deriving DecidableEq, Repr

/-- One entry of the `route_patterns` table. -/
structure RoutePattern where
  name : PatternName
  waypoints : Nat
  detour : ℚ
deriving DecidableEq, Repr

/-- The `route_patterns` table of `generate_safety_filtered_routes`. -/
def route_patterns : List RoutePattern :=
  [{ name := .direct, waypoints := 12, detour := 0 },
   { name := .northern_arc, waypoints := 15, detour := 8/1000 },
   { name := .southern_arc, waypoints := 15, detour := -(8/1000) },
   { name := .eastern_detour, waypoints := 18, detour := 6/1000 },
   { name := .western_detour, waypoints := 18, detour := -(6/1000) },
   { name := .conservative, waypoints := 22, detour := 12/1000 },
   { name := .scenic_route, waypoints := 20, detour := 10/1000 },
   { name := .highway_style, waypoints := 10, detour := 2/1000 }]

section TrigPatterns

variable (sinQ cosQ : ℚ → ℚ) (piQ : ℚ)

/-- The pattern-specific `(lat, lon)` displacement added to the base
interpolation at a given progress fraction.  Each branch is guarded by
the progress window of the source; outside the window the displacement
is zero. -/
def patternOffset (pat : RoutePattern) (progress : ℚ) : ℚ × ℚ :=
  match pat.name with
  | .direct => (0, 0)
  | .northern_arc =>
      if 2/10 ≤ progress ∧ progress ≤ 8/10 then
        (pat.detour * sinQ (progress * piQ), 0)
      else (0, 0)
  | .southern_arc =>
      if 2/10 ≤ progress ∧ progress ≤ 8/10 then
        (pat.detour * sinQ (progress * piQ), 0)
      else (0, 0)
  | .eastern_detour =>
      if 3/10 ≤ progress ∧ progress ≤ 7/10 then
        (0, pat.detour * cosQ (progress * piQ * 2))
      else (0, 0)
  | .western_detour =>
      if 3/10 ≤ progress ∧ progress ≤ 7/10 then
        (0, pat.detour * cosQ (progress * piQ * 2))
      else (0, 0)
  | .conservative =>
      if 15/100 ≤ progress ∧ progress ≤ 85/100 then
        (pat.detour * (7/10) * sinQ (progress * piQ * 3),
         pat.detour * (5/10) * cosQ (progress * piQ * (25/10)))
      else (0, 0)
  | .scenic_route =>
      if 2/10 ≤ progress ∧ progress ≤ 8/10 then
        (pat.detour * sinQ (progress * piQ * 2),
         pat.detour * (6/10) * cosQ (progress * piQ * (18/10)))
      else (0, 0)
  | .highway_style =>
      if 4/10 ≤ progress ∧ progress ≤ 6/10 then
        (pat.detour * sinQ (progress * piQ * 4), 0)
      else (0, 0)

/-- Waypoint `j` of a pattern route.  `start_coords`/`end_coords` are
`(lat, lon)`; the produced coordinate is appended as `[lon, lat]`. -/
def patternPoint (start_coords end_coords : ℚ × ℚ) (pat : RoutePattern)
    (j : Nat) : GeoPoint :=
  let progress : ℚ := (j : ℚ) / (pat.waypoints : ℚ)
  let off := patternOffset sinQ cosQ piQ pat progress
  let lat := start_coords.1 + (end_coords.1 - start_coords.1) * progress + off.1
  let lon := start_coords.2 + (end_coords.2 - start_coords.2) * progress + off.2
  (lon, lat)

/-- The full coordinate list of one pattern route
(`for j in range(waypoints + 1)`). -/
def patternCoords (start_coords end_coords : ℚ × ℚ) (pat : RoutePattern) :
    List GeoPoint :=
  (List.range (pat.waypoints + 1)).map
    (patternPoint sinQ cosQ piQ start_coords end_coords pat)

end TrigPatterns

/-- One analyzed candidate route as assembled in `route_analyses`
(`route_id`, coordinates, pattern, exposure analysis; `safety_level` and
`risk_score` are the two projections of the exposure used below). -/
structure RouteAnalysis where
  route_id : Nat
  coords : List GeoPoint
  pattern : PatternName
  exposure : ExposureProfile
deriving DecidableEq, Repr

/-- `safety_level = exposure_analysis["risk_level"]`. -/
def safety_level (a : RouteAnalysis) : RiskLevel :=
  a.exposure.risk_level

/-- `risk_score = exposure_analysis["overall_risk_score"]`. -/
def risk_score (a : RouteAnalysis) : Nat :=
  a.exposure.overall_risk_score

/-- The safety priorities; any string other than `"maximum_safety"` and
`"fastest"` falls into the `balanced` else-branch of the source, so the
enum is exhaustive. -/
inductive SafetyPriority where
  | maximum_safety
  | fastest
  | balanced
deriving DecidableEq, Repr

/-- The selection result: the Python pair of dicts `selected_routes` /
`route_metadata` always carries, per key, the coordinates and the full
analysis of the same candidate, so one `Option RouteAnalysis` per key is
the whole state (the coordinate dict is the `coords` projection). -/
structure RouteSelection where
  low_risk : Option RouteAnalysis
  medium_risk : Option RouteAnalysis
  high_risk : Option RouteAnalysis
deriving DecidableEq, Repr

/-- The stable sort `sorted(route_analyses, key=lambda x: x["risk_score"])`,
embedded as the (stable) insertion sort on the risk-score order. -/
def scoreLE (a b : RouteAnalysis) : Prop :=
  risk_score a ≤ risk_score b

instance : DecidableRel scoreLE := fun _ _ => Nat.decLe _ _

instance : IsTotal RouteAnalysis scoreLE :=
  ⟨fun a b => Nat.le_total (risk_score a) (risk_score b)⟩

instance : IsTrans RouteAnalysis scoreLE :=
  ⟨fun _ _ _ h1 h2 => Nat.le_trans h1 h2⟩

/-- `sorted_routes`. -/
def sorted_routes (route_analyses : List RouteAnalysis) : List RouteAnalysis :=
  List.insertionSort scoreLE route_analyses

/-- `green_routes`: the low-risk candidates, in risk-score order. -/
def green_routes (route_analyses : List RouteAnalysis) : List RouteAnalysis :=
  (sorted_routes route_analyses).filter fun r =>
    decide (safety_level r = .low_risk)

/-- `yellow_routes`. -/
def yellow_routes (route_analyses : List RouteAnalysis) : List RouteAnalysis :=
  (sorted_routes route_analyses).filter fun r =>
    decide (safety_level r = .medium_risk)

/-- `red_routes`. -/
def red_routes (route_analyses : List RouteAnalysis) : List RouteAnalysis :=
  (sorted_routes route_analyses).filter fun r =>
    decide (safety_level r = .high_risk)

/-- The selection step of `generate_safety_filtered_routes` (lines
259-306).  In the balanced branch `len(selected_routes) < 2` is
evaluated after the green and yellow insertions, so it equals the count
of non-empty green/yellow tiers. -/
def select_routes (safety_priority : SafetyPriority)
    (route_analyses : List RouteAnalysis) : RouteSelection :=
  let gs := green_routes route_analyses
  let ys := yellow_routes route_analyses
  let rs := red_routes route_analyses
  match safety_priority with
  | .maximum_safety =>
      { low_risk := gs.head?, medium_risk := ys.head?, high_risk := none }
  | .fastest =>
      { low_risk := gs.head?, medium_risk := ys.head?, high_risk := rs.head? }
  | .balanced =>
      let numSelected :=
        (if gs.isEmpty then 0 else 1) + (if ys.isEmpty then 0 else 1)
      { low_risk := gs.head?
        medium_risk := ys.head?
        high_risk :=
          if !rs.isEmpty && numSelected < 2 then rs.head? else none }

section TrigPipeline

variable (sinQ cosQ : ℚ → ℚ) (piQ : ℚ)

/-- The analysis step: each of the (up to 8) base routes is analyzed
with `calculate_detailed_crime_exposure` under the default thresholds. -/
def route_analyses_of (start_coords end_coords : ℚ × ℚ)
    (crime_df : List CrimeRecord) : List RouteAnalysis :=
  (route_patterns.enum).map fun pi_ =>
    { route_id := pi_.1
      coords := patternCoords sinQ cosQ piQ start_coords end_coords pi_.2
      pattern := pi_.2.name
      exposure := calculate_detailed_crime_exposure
        (patternCoords sinQ cosQ piQ start_coords end_coords pi_.2)
        crime_df defaultProximityThresholds }

/-- `utils_maps.generate_safety_filtered_routes` with the default
`num_base_routes = 8` (all patterns): synthesize, analyze, select. -/
def generate_safety_filtered_routes (start_coords end_coords : ℚ × ℚ)
    (crime_df : List CrimeRecord) (safety_priority : SafetyPriority) :
    RouteSelection :=
  select_routes safety_priority
    (route_analyses_of sinQ cosQ piQ start_coords end_coords crime_df)

end TrigPipeline

/-! ## Helper lemmas -/

/-- Per-point mutual exclusivity of the exposure loop: the three segment
counters partition the route points. -/
theorem seg_counts_partition (crime_df : List CrimeRecord)
    (th : ProximityThresholds) (l : List GeoPoint) :
    l.countP (isHighSeg crime_df th) + l.countP (isMediumSeg crime_df th)
      + l.countP (isSafeSeg crime_df th) = l.length := by
  induction l with
  | nil => simp
  | cons a t ih =>
    simp only [List.countP_cons, List.length_cons]
    cases hh : isHighSeg crime_df th a <;>
      cases hm : withinRadius (clusterPoints crime_df 1) a th.medium_crime <;>
        simp [isMediumSeg, isSafeSeg, hh, hm] <;> omega

/-- A mapped range of length `w + 1 ≥ 2` has `f 0` first and `f w` last. -/
theorem range_map_endpoints {α : Type} (f : Nat → α) (w : Nat) (hw : w ≠ 0)
    (a b : α) (h0 : f 0 = a) (h1 : f w = b) :
    2 ≤ ((List.range (w + 1)).map f).length ∧
    ((List.range (w + 1)).map f).head? = some a ∧
    ((List.range (w + 1)).map f).getLast? = some b := by
  refine ⟨?_, ?_, ?_⟩
  · simp only [List.length_map, List.length_range]
    omega
  · rw [List.range_succ_eq_map]
    simp [h0]
  · rw [List.range_succ, List.map_append]
    simp [h1]

/-! ## Claim theorems -/

/-- C7 counterexample: the per-record time fallback is noon, so an
unparsable `TIME OCC` value (for example the string rendering of a NaN)
buckets as Afternoon, and a missing `TIME OCC` column buckets as
Unknown; neither is Night as the claim states. -/
theorem c7_night_default_counterexample :
    add_time_of_day (some ("nan".toList)) = .Afternoon ∧
    add_time_of_day (some ("nan".toList)) ≠ .Night ∧
    add_time_of_day none = .Unknown ∧
    add_time_of_day none ≠ .Night := by
  refine ⟨rfl, by decide, rfl, by decide⟩

/-- C7 (amended): the hour buckets are exactly `[6,12)` Morning,
`[12,16)` Afternoon, `[16,18)` Evening, Night otherwise; but a record
whose `TIME OCC` column is missing gets the `Unknown` bucket and an
unparsable time value is defaulted to hour 12 and hence bucketed as
Afternoon (not Night). -/
theorem c7_time_bucket_policy :
    (∀ h : Nat,
      (timeOfDayOfHour h = .Morning ↔ 6 ≤ h ∧ h < 12) ∧
      (timeOfDayOfHour h = .Afternoon ↔ 12 ≤ h ∧ h < 16) ∧
      (timeOfDayOfHour h = .Evening ↔ 16 ≤ h ∧ h < 18) ∧
      (timeOfDayOfHour h = .Night ↔ ¬(6 ≤ h ∧ h < 18))) ∧
    add_time_of_day none = .Unknown ∧
    hourOfTimeField ("nan".toList) = 12 ∧
    add_time_of_day (some ("nan".toList)) = .Afternoon := by
  refine ⟨?_, rfl, rfl, rfl⟩
  intro h
  refine ⟨?_, ?_, ?_, ?_⟩ <;> unfold timeOfDayOfHour <;>
    split_ifs with h1 h2 h3 <;> (try simp) <;> omega

/-- C8: in both severity classifiers the High keyword set is tested
before the Medium one, so a description matching both sets is classified
High (cluster 0) by each. -/
theorem c8_high_beats_medium (crime_desc : List Char)
    (h1 : advHigh crime_desc = true) (_h2 : advMed crime_desc = true)
    (h3 : apiHigh crime_desc = true) (_h4 : apiMed crime_desc = true) :
    classify_advanced_crime_severity crime_desc = 0 ∧
    classify_crime_severity crime_desc = 0 := by
  unfold classify_advanced_crime_severity classify_crime_severity
  rw [h1, h3]
  exact ⟨rfl, rfl⟩

/-- C8 witness: a description matching both keyword sets of both
classifiers, classified High by both. -/
theorem c8_high_beats_medium_witness :
    advHigh ("ROBBERY AND THEFT".toList) = true ∧
    advMed ("ROBBERY AND THEFT".toList) = true ∧
    apiHigh ("ROBBERY AND THEFT".toList) = true ∧
    apiMed ("ROBBERY AND THEFT".toList) = true ∧
    (classify_advanced_crime_severity ("ROBBERY AND THEFT".toList) = 0 ∧
     classify_crime_severity ("ROBBERY AND THEFT".toList) = 0) :=
  ⟨rfl, rfl, rfl, rfl,
   c8_high_beats_medium ("ROBBERY AND THEFT".toList) rfl rfl rfl rfl⟩

/-- C2 counterexample: for a one-point route and an empty incident set
the early return reports `0 + 0 + 0` classified segments against
`total_segments = 1`, so the partition identity fails on the empty
incident set. -/
theorem c2_partition_counterexample :
    ¬ ((calculate_detailed_crime_exposure [((0:ℚ), 0)] []
          defaultProximityThresholds).high_crime_segments
      + (calculate_detailed_crime_exposure [((0:ℚ), 0)] []
          defaultProximityThresholds).medium_crime_segments
      + (calculate_detailed_crime_exposure [((0:ℚ), 0)] []
          defaultProximityThresholds).safe_segments
      = (calculate_detailed_crime_exposure [((0:ℚ), 0)] []
          defaultProximityThresholds).total_segments) := by
  decide

/-- C2 (amended): the partition identity
`high + medium + safe = total` holds for every route and every
*non-empty* classified incident set (and trivially for empty routes);
with an empty incident set the analyzer early-returns all-zero segment
counts, so there the identity holds only for empty routes. -/
theorem c2_exposure_partition (route_coords : List GeoPoint)
    (crime_df : List CrimeRecord) (th : ProximityThresholds)
    (hdf : crime_df ≠ []) :
    (calculate_detailed_crime_exposure route_coords crime_df
        th).high_crime_segments
      + (calculate_detailed_crime_exposure route_coords crime_df
          th).medium_crime_segments
      + (calculate_detailed_crime_exposure route_coords crime_df
          th).safe_segments
      = (calculate_detailed_crime_exposure route_coords crime_df
          th).total_segments := by
  obtain ⟨d, ds, rfl⟩ : ∃ d ds, crime_df = d :: ds := by
    cases crime_df with
    | nil => exact absurd rfl hdf
    | cons d ds => exact ⟨d, ds, rfl⟩
  cases route_coords with
  | nil => simp [calculate_detailed_crime_exposure]
  | cons r rs =>
    simp only [calculate_detailed_crime_exposure, List.isEmpty_cons,
      Bool.or_self, Bool.false_eq_true, if_false]
    exact seg_counts_partition (d :: ds) th (r :: rs)

/-- C2 witness: the partition identity at a concrete route and a
concrete non-empty incident set. -/
theorem c2_exposure_partition_witness :
    ([⟨0, 0, 0⟩] : List CrimeRecord) ≠ [] ∧
    ((calculate_detailed_crime_exposure [((2:ℚ), 2)] [⟨0, 0, 0⟩]
        defaultProximityThresholds).high_crime_segments
      + (calculate_detailed_crime_exposure [((2:ℚ), 2)] [⟨0, 0, 0⟩]
          defaultProximityThresholds).medium_crime_segments
      + (calculate_detailed_crime_exposure [((2:ℚ), 2)] [⟨0, 0, 0⟩]
          defaultProximityThresholds).safe_segments
      = (calculate_detailed_crime_exposure [((2:ℚ), 2)] [⟨0, 0, 0⟩]
          defaultProximityThresholds).total_segments) :=
  ⟨by decide,
   c2_exposure_partition [((2:ℚ), 2)] [⟨0, 0, 0⟩]
     defaultProximityThresholds (by decide)⟩

/-- C3 counterexample: analyzing a non-empty route against an empty
incident set reports `safe_percentage = 0` (and zero safe segments), not
the 100% safe profile the claim states. -/
theorem c3_empty_incidents_counterexample :
    (calculate_detailed_crime_exposure [((1:ℚ), 1), ((2:ℚ), 2)] []
        defaultProximityThresholds).high_crime_percentage = 0 ∧
    (calculate_detailed_crime_exposure [((1:ℚ), 1), ((2:ℚ), 2)] []
        defaultProximityThresholds).medium_crime_percentage = 0 ∧
    (calculate_detailed_crime_exposure [((1:ℚ), 1), ((2:ℚ), 2)] []
        defaultProximityThresholds).safe_percentage = 0 ∧
    (calculate_detailed_crime_exposure [((1:ℚ), 1), ((2:ℚ), 2)] []
        defaultProximityThresholds).safe_percentage ≠ 100 := by
  refine ⟨rfl, rfl, rfl, by decide⟩

/-- C3 (amended): on a non-empty route and an empty incident set the
analyzer does not raise and reports `risk_level = low_risk` with 0% high
and 0% medium exposure, but its `safe_percentage` and `safe_segments`
are 0 (not 100% / `total_segments`): the early return zeroes every
field except `total_segments`. -/
theorem c3_empty_incidents_profile (route_coords : List GeoPoint)
    (th : ProximityThresholds) (_hroute : route_coords ≠ []) :
    (calculate_detailed_crime_exposure route_coords [] th).risk_level
        = .low_risk ∧
    (calculate_detailed_crime_exposure route_coords [] th).high_crime_percentage = 0 ∧
    (calculate_detailed_crime_exposure route_coords [] th).medium_crime_percentage = 0 ∧
    (calculate_detailed_crime_exposure route_coords [] th).safe_percentage = 0 ∧
    (calculate_detailed_crime_exposure route_coords [] th).safe_segments = 0 ∧
    (calculate_detailed_crime_exposure route_coords [] th).total_segments
        = route_coords.length := by
  simp [calculate_detailed_crime_exposure]

/-- C3 witness: the degraded profile at a concrete non-empty route. -/
theorem c3_empty_incidents_profile_witness :
    ([((3:ℚ), 4)] : List GeoPoint) ≠ [] ∧
    ((calculate_detailed_crime_exposure [((3:ℚ), 4)] []
        defaultProximityThresholds).risk_level = .low_risk ∧
     (calculate_detailed_crime_exposure [((3:ℚ), 4)] []
        defaultProximityThresholds).high_crime_percentage = 0 ∧
     (calculate_detailed_crime_exposure [((3:ℚ), 4)] []
        defaultProximityThresholds).medium_crime_percentage = 0 ∧
     (calculate_detailed_crime_exposure [((3:ℚ), 4)] []
        defaultProximityThresholds).safe_percentage = 0 ∧
     (calculate_detailed_crime_exposure [((3:ℚ), 4)] []
        defaultProximityThresholds).safe_segments = 0 ∧
     (calculate_detailed_crime_exposure [((3:ℚ), 4)] []
        defaultProximityThresholds).total_segments
        = ([((3:ℚ), 4)] : List GeoPoint).length) :=
  ⟨by decide,
   c3_empty_incidents_profile [((3:ℚ), 4)] defaultProximityThresholds
     (by decide)⟩

/-- Unfolding helper: when is the canonical policy `low_risk`? -/
theorem canonical_policy_eq_low_iff (hHigh hMed tHigh tMed hp mp : ℚ) :
    canonical_policy hHigh hMed tHigh tMed hp mp = .low_risk ↔
      ¬(hp > hHigh ∨ hp + mp > tHigh) ∧ ¬(hp > hMed ∨ hp + mp > tMed) := by
  unfold canonical_policy
  split_ifs with h1 h2 <;> simp_all

/-- C4 counterexample: no thresholds can make the risk policy hard-coded
in `utils_maps.calculate_detailed_crime_exposure` an instance of the
canonical policy, because its medium tier tests the medium percentage
alone: the profiles `(high, medium) = (5, 30)` (classified Low) and
`(0, 31)` (classified Medium) are inconsistent with every choice of
`H_high, H_med, T_high, T_med`. -/
theorem c4_canonical_policy_counterexample :
    ¬ ∃ hHigh hMed tHigh tMed : ℚ, hHigh > hMed ∧ tHigh > tMed ∧
      ∀ hp mp : ℚ, 0 ≤ hp → 0 ≤ mp → hp + mp ≤ 100 →
        utils_risk_level hp mp = canonical_policy hHigh hMed tHigh tMed hp mp := by
  rintro ⟨hHigh, hMed, tHigh, tMed, -, -, hall⟩
  have h1 := hall 5 30 (by norm_num) (by norm_num) (by norm_num)
  have h2 := hall 0 31 (by norm_num) (by norm_num) (by norm_num)
  have e1 : utils_risk_level 5 30 = .low_risk := by
    unfold utils_risk_level
    norm_num
  have e2 : utils_risk_level 0 31 = .medium_risk := by
    unfold utils_risk_level
    norm_num
  rw [e1] at h1
  rw [e2] at h2
  obtain ⟨hA, hB⟩ := (canonical_policy_eq_low_iff hHigh hMed tHigh tMed 5 30).mp h1.symm
  push_neg at hA hB
  unfold canonical_policy at h2
  rw [if_neg, if_neg] at h2
  · exact absurd h2 (by decide)
  · rintro (hx | hx) <;> linarith [hB.1, hB.2]
  · rintro (hx | hx) <;> linarith [hA.1, hA.2]

/-- C4 (amended): `free_api_utils.determine_route_safety_level` does
follow the canonical policy — with `H_high = 10`, `H_med = 3`,
`T_med = 20` and any vacuous `T_high ≥ 100` (its High tier tests the
high percentage only) — for every exposure profile (whose percentages
are nonnegative and sum to at most 100); the `utils_maps` analyzer's
hard-coded policy does not (see the counterexample), as it tests the
medium percentage alone in its medium tier. -/
theorem c4_free_api_matches_canonical_policy :
    ∃ hHigh hMed tHigh tMed : ℚ, hHigh > hMed ∧ tHigh > tMed ∧
      ∀ hp mp : ℚ, 0 ≤ hp → 0 ≤ mp → hp + mp ≤ 100 →
        determine_safety_from_pcts hp mp
          = canonical_policy hHigh hMed tHigh tMed hp mp := by
  refine ⟨10, 3, 100, 20, by norm_num, by norm_num, ?_⟩
  intro hp mp _ _ hsum
  unfold determine_safety_from_pcts canonical_policy
  have hno : ¬(hp + mp > 100) := not_lt.mpr hsum
  by_cases hA : hp > 10
  · rw [if_pos hA, if_pos (Or.inl hA)]
  · have hc1 : ¬(hp > 10 ∨ hp + mp > 100) := by
      rintro (hx | hx)
      · exact hA hx
      · exact hno hx
    rw [if_neg hA, if_neg hc1]

/-- C1: the `utils_maps` selection honors the claim — a
`maximum_safety` selection never carries a `high_risk` entry (first
conjunct) — but the `maximum_safety` branch of
`free_api_utils.compute_and_display_safe_route` does not: at the failing
input below, the single candidate route passes within the proximity
threshold of a high-severity incident and is classified `high_risk`, so
`filtered_routes` is empty — and then
`routes = filtered_routes if filtered_routes else routes` silently
restores and surfaces the unfiltered high-risk route instead of
producing the "no safe alternative" terminal outcome its own comments
("Only keep low and medium risk routes for maximum safety") and the
specification describe. -/
theorem c1_max_safety_silent_fallback :
    (∀ route_analyses : List RouteAnalysis,
      (select_routes .maximum_safety route_analyses).high_risk = none) ∧
    determine_route_safety_level
        (analyze_route_crime_exposure [((0:ℚ), 0)] [⟨0, 0, 0⟩] (5/1000))
      = some .high_risk ∧
    filter_routes_maximum_safety [(.high_risk, [((0:ℚ), 0)])] [⟨0, 0, 0⟩]
      = [(.high_risk, [((0:ℚ), 0)])] := by
  refine ⟨fun _ => rfl, ?_, ?_⟩
  · norm_num [determine_route_safety_level, analyze_route_crime_exposure,
      determine_safety_from_pcts, apiHighSeg, apiMediumSeg,
      withinRadius, clusterPoints, List.countP_cons, List.countP_nil]
  · norm_num [filter_routes_maximum_safety, determine_route_safety_level,
      analyze_route_crime_exposure, determine_safety_from_pcts, apiHighSeg,
      apiMediumSeg, withinRadius, clusterPoints, List.countP_cons,
      List.countP_nil, List.filter]

/-- C5: when the OSRM routing call fails (`routes is None`) the fallback
returns the simulated route set: it contains at least one route, and the
direct linear interpolation between the two endpoints is among them (as
the `high_risk` entry); no error is propagated (the fallback is a total
function).  Holds for any distinct start/end points, any travel mode and
any interpretation of the trigonometric shaping. -/
theorem c5_routing_failure_fallback (sinQ cosQ : ℚ → ℚ) (piQ : ℚ)
    (start_coords end_coords : ℚ × ℚ) (travel_mode : TravelMode)
    (_hne : start_coords ≠ end_coords) :
    1 ≤ (osrm_routes_with_fallback sinQ cosQ piQ none start_coords
          end_coords travel_mode).length ∧
    osrm_routes_with_fallback sinQ cosQ piQ none start_coords end_coords
        travel_mode
      = generate_simulated_routes sinQ cosQ piQ start_coords end_coords
          travel_mode ∧
    (RouteKey.high_risk,
        (List.range ((mode_params travel_mode).waypoints + 1)).map
          (simDirectPoint start_coords end_coords
            (mode_params travel_mode).waypoints))
      ∈ osrm_routes_with_fallback sinQ cosQ piQ none start_coords
          end_coords travel_mode := by
  refine ⟨?_, rfl, ?_⟩ <;>
    cases travel_mode <;>
      simp [osrm_routes_with_fallback, generate_simulated_routes, mode_params]

/-- C5 witness: the fallback at concrete distinct endpoints. -/
theorem c5_routing_failure_fallback_witness :
    (((0:ℚ), 0) : ℚ × ℚ) ≠ ((1:ℚ), 1) ∧
    (1 ≤ (osrm_routes_with_fallback (fun _ => 0) (fun _ => 0) 0 none
            ((0:ℚ), 0) ((1:ℚ), 1) .driving).length ∧
     osrm_routes_with_fallback (fun _ => 0) (fun _ => 0) 0 none
         ((0:ℚ), 0) ((1:ℚ), 1) .driving
       = generate_simulated_routes (fun _ => 0) (fun _ => 0) 0
           ((0:ℚ), 0) ((1:ℚ), 1) .driving ∧
     (RouteKey.high_risk,
         (List.range ((mode_params .driving).waypoints + 1)).map
           (simDirectPoint ((0:ℚ), 0) ((1:ℚ), 1)
             (mode_params .driving).waypoints))
       ∈ osrm_routes_with_fallback (fun _ => 0) (fun _ => 0) 0 none
           ((0:ℚ), 0) ((1:ℚ), 1) .driving) :=
  ⟨by decide,
   c5_routing_failure_fallback (fun _ => 0) (fun _ => 0) 0
     ((0:ℚ), 0) ((1:ℚ), 1) .driving (by decide)⟩

/-- C9: the route pipeline — synthesis, exposure analysis and selection
— is a pure function of the query (start, end, safety priority) and the
classified incident snapshot, so two runs on equal inputs produce equal
`RouteSelection`s. -/
theorem c9_pipeline_deterministic (sinQ cosQ : ℚ → ℚ) (piQ : ℚ)
    (s₁ s₂ e₁ e₂ : ℚ × ℚ) (df₁ df₂ : List CrimeRecord)
    (p₁ p₂ : SafetyPriority)
    (hs : s₁ = s₂) (he : e₁ = e₂) (hdf : df₁ = df₂) (hp : p₁ = p₂) :
    generate_safety_filtered_routes sinQ cosQ piQ s₁ e₁ df₁ p₁
      = generate_safety_filtered_routes sinQ cosQ piQ s₂ e₂ df₂ p₂ := by
  subst hs he hdf hp
  rfl

/-- C9 witness: determinism instantiated at a concrete query. -/
theorem c9_pipeline_deterministic_witness :
    (((0:ℚ), 0) : ℚ × ℚ) = ((0:ℚ), 0) ∧
    (((1:ℚ), 1) : ℚ × ℚ) = ((1:ℚ), 1) ∧
    ([⟨0, 0, 0⟩] : List CrimeRecord) = [⟨0, 0, 0⟩] ∧
    SafetyPriority.balanced = SafetyPriority.balanced ∧
    generate_safety_filtered_routes (fun _ => 0) (fun _ => 0) 0
        ((0:ℚ), 0) ((1:ℚ), 1) [⟨0, 0, 0⟩] .balanced
      = generate_safety_filtered_routes (fun _ => 0) (fun _ => 0) 0
          ((0:ℚ), 0) ((1:ℚ), 1) [⟨0, 0, 0⟩] .balanced :=
  ⟨rfl, rfl, rfl, rfl,
   c9_pipeline_deterministic (fun _ => 0) (fun _ => 0) 0
     ((0:ℚ), 0) ((0:ℚ), 0) ((1:ℚ), 1) ((1:ℚ), 1)
     [⟨0, 0, 0⟩] [⟨0, 0, 0⟩] .balanced .balanced rfl rfl rfl rfl⟩

/-- At `j = 0` the interpolation progress is 0, so a pattern waypoint
with vanishing offset is exactly the start point (as `[lon, lat]`). -/
theorem patternPoint_at_zero (sinQ cosQ : ℚ → ℚ) (piQ : ℚ)
    (s e : ℚ × ℚ) (pat : RoutePattern)
    (hoff : patternOffset sinQ cosQ piQ pat 0 = (0, 0)) :
    patternPoint sinQ cosQ piQ s e pat 0 = (s.2, s.1) := by
  simp [patternPoint, hoff]

/-- At `j = waypoints` the interpolation progress is 1, so a pattern
waypoint with vanishing offset is exactly the end point. -/
theorem patternPoint_at_last (sinQ cosQ : ℚ → ℚ) (piQ : ℚ)
    (s e : ℚ × ℚ) (pat : RoutePattern)
    (hw : ((pat.waypoints : Nat) : ℚ) ≠ 0)
    (hoff : patternOffset sinQ cosQ piQ pat 1 = (0, 0)) :
    patternPoint sinQ cosQ piQ s e pat pat.waypoints = (e.2, e.1) := by
  simp only [patternPoint, div_self hw, hoff, Prod.mk.injEq]
  constructor <;> ring

/-- The direct simulated route starts at the start point. -/
theorem simDirectPoint_at_zero (s e : ℚ × ℚ) (w : Nat) :
    simDirectPoint s e w 0 = (s.2, s.1) := by
  simp [simDirectPoint]

/-- The direct simulated route ends at the end point. -/
theorem simDirectPoint_at_last (s e : ℚ × ℚ) (w : Nat)
    (hw : ((w : Nat) : ℚ) ≠ 0) :
    simDirectPoint s e w w = (e.2, e.1) := by
  simp only [simDirectPoint, div_self hw, Prod.mk.injEq]
  constructor <;> ring

/-- The balanced simulated route starts at the start point: its curve
window `[0.2, 0.8]` excludes progress 0. -/
theorem simBalancedPoint_at_zero (sinQ cosQ : ℚ → ℚ) (piQ cf : ℚ)
    (s e : ℚ × ℚ) (w : Nat) :
    simBalancedPoint sinQ cosQ piQ cf s e w 0 = (s.2, s.1) := by
  simp only [simBalancedPoint, Nat.cast_zero, zero_div]
  rw [if_neg (by norm_num)]
  simp

/-- The balanced simulated route ends at the end point: its curve window
excludes progress 1. -/
theorem simBalancedPoint_at_last (sinQ cosQ : ℚ → ℚ) (piQ cf : ℚ)
    (s e : ℚ × ℚ) (w : Nat) (hw : ((w : Nat) : ℚ) ≠ 0) :
    simBalancedPoint sinQ cosQ piQ cf s e w w = (e.2, e.1) := by
  simp only [simBalancedPoint, div_self hw]
  rw [if_neg (by norm_num)]
  simp only [Prod.mk.injEq]
  constructor <;> ring

/-- The safe simulated route starts at the start point: its detour
window `[0.1, 0.9]` excludes progress 0. -/
theorem simSafePoint_at_zero (sinQ cosQ : ℚ → ℚ) (piQ cf : ℚ)
    (s e : ℚ × ℚ) (w : Nat) :
    simSafePoint sinQ cosQ piQ cf s e w 0 = (s.2, s.1) := by
  simp only [simSafePoint, Nat.cast_zero, zero_div]
  rw [if_neg (by norm_num)]
  simp

/-- The safe simulated route ends at the end point: its detour window
excludes progress 1. -/
theorem simSafePoint_at_last (sinQ cosQ : ℚ → ℚ) (piQ cf : ℚ)
    (s e : ℚ × ℚ) (w : Nat) (hw : ((w : Nat) : ℚ) ≠ 0) :
    simSafePoint sinQ cosQ piQ cf s e w w = (e.2, e.1) := by
  simp only [simSafePoint, div_self hw]
  rw [if_neg (by norm_num)]
  simp only [Prod.mk.injEq]
  constructor <;> ring

/-- C10: every synthesized route — each of the 8 `utils_maps` patterns
and each of the 3 `free_api_utils` simulated routes — has at least 2
points, starts exactly at the requested start coordinate and ends
exactly at the requested end coordinate (as `[lon, lat]` pairs): the
sinusoidal detour windows exclude the interpolation fractions 0 and 1,
for every interpretation of the trigonometric functions. -/
theorem c10_route_endpoints (sinQ cosQ : ℚ → ℚ) (piQ : ℚ)
    (s e : ℚ × ℚ) (mode : TravelMode) :
    (∀ pat ∈ route_patterns,
      2 ≤ (patternCoords sinQ cosQ piQ s e pat).length ∧
      (patternCoords sinQ cosQ piQ s e pat).head? = some (s.2, s.1) ∧
      (patternCoords sinQ cosQ piQ s e pat).getLast? = some (e.2, e.1)) ∧
    (∀ kv ∈ generate_simulated_routes sinQ cosQ piQ s e mode,
      2 ≤ kv.2.length ∧
      kv.2.head? = some (s.2, s.1) ∧
      kv.2.getLast? = some (e.2, e.1)) := by
  constructor
  · intro pat hpat
    unfold patternCoords
    fin_cases hpat <;>
      exact range_map_endpoints _ _ (by norm_num) _ _
        (patternPoint_at_zero sinQ cosQ piQ s e _ (by norm_num [patternOffset]))
        (patternPoint_at_last sinQ cosQ piQ s e _ (by norm_num)
          (by norm_num [patternOffset]))
  · intro kv hkv
    cases mode <;>
      · simp only [generate_simulated_routes, mode_params, List.mem_cons,
          List.not_mem_nil, or_false] at hkv
        rcases hkv with rfl | rfl | rfl
        · exact range_map_endpoints _ _ (by norm_num) _ _
            (simDirectPoint_at_zero s e _) (simDirectPoint_at_last s e _ (by norm_num))
        · exact range_map_endpoints _ _ (by norm_num) _ _
            (simBalancedPoint_at_zero sinQ cosQ piQ _ s e _)
            (simBalancedPoint_at_last sinQ cosQ piQ _ s e _ (by norm_num))
        · exact range_map_endpoints _ _ (by norm_num) _ _
            (simSafePoint_at_zero sinQ cosQ piQ _ s e _)
            (simSafePoint_at_last sinQ cosQ piQ _ s e _ (by norm_num))

/-- C10 witness: the direct pattern at concrete endpoints. -/
theorem c10_route_endpoints_witness :
    ({ name := .direct, waypoints := 12, detour := 0 } : RoutePattern)
        ∈ route_patterns ∧
    (2 ≤ (patternCoords (fun _ => (0:ℚ)) (fun _ => 0) 0 ((0:ℚ), 0)
            ((1:ℚ), 1)
            { name := .direct, waypoints := 12, detour := 0 }).length ∧
     (patternCoords (fun _ => (0:ℚ)) (fun _ => 0) 0 ((0:ℚ), 0) ((1:ℚ), 1)
         { name := .direct, waypoints := 12, detour := 0 }).head?
       = some ((0:ℚ), 0) ∧
     (patternCoords (fun _ => (0:ℚ)) (fun _ => 0) 0 ((0:ℚ), 0) ((1:ℚ), 1)
         { name := .direct, waypoints := 12, detour := 0 }).getLast?
       = some ((1:ℚ), 1)) :=
  ⟨by unfold route_patterns; exact List.mem_cons_self _ _,
   (c10_route_endpoints (fun _ => 0) (fun _ => 0) 0 ((0:ℚ), 0) ((1:ℚ), 1)
       .driving).1 _
     (by unfold route_patterns; exact List.mem_cons_self _ _)⟩

/-! ### Selection-stage lemmas for the Balanced policy -/

/-- A sorted-then-filtered tier list is empty exactly when no candidate
satisfies the tier predicate. -/
theorem tier_nil_iff (p : RouteAnalysis → Bool) (l : List RouteAnalysis) :
    (sorted_routes l).filter p = [] ↔ ∀ b ∈ l, ¬ p b := by
  constructor
  · intro hnil b hb hpb
    have hmem : b ∈ (sorted_routes l).filter p :=
      ((List.perm_insertionSort scoreLE l).filter p).mem_iff.mpr
        (List.mem_filter.mpr ⟨hb, hpb⟩)
    rw [hnil] at hmem
    exact (List.not_mem_nil b) hmem
  · intro hall
    have hln : l.filter p = [] := List.filter_eq_nil_iff.mpr hall
    have hperm := (List.perm_insertionSort scoreLE l).filter p
    rw [hln] at hperm
    exact List.Perm.eq_nil hperm

/-- The head of a sorted-then-filtered tier list is a member of the
candidate set, satisfies the tier predicate, and has minimal risk score
within its tier. -/
theorem tier_head_min (p : RouteAnalysis → Bool) (l : List RouteAnalysis)
    (a : RouteAnalysis) (h : ((sorted_routes l).filter p).head? = some a) :
    p a = true ∧ a ∈ l ∧
      ∀ b ∈ l, p b = true → risk_score a ≤ risk_score b := by
  obtain ⟨t, ht⟩ : ∃ t, (sorted_routes l).filter p = a :: t := by
    cases hfl : (sorted_routes l).filter p with
    | nil => rw [hfl] at h; simp at h
    | cons x xs =>
      rw [hfl] at h
      simp only [List.head?_cons, Option.some.injEq] at h
      exact ⟨xs, by rw [h]⟩
  have hmemf : a ∈ (sorted_routes l).filter p := by
    rw [ht]
    exact List.mem_cons_self a t
  have hpa : p a = true := List.of_mem_filter hmemf
  have hperm := (List.perm_insertionSort scoreLE l).filter p
  have hal : a ∈ l := List.mem_of_mem_filter (hperm.mem_iff.mp hmemf)
  refine ⟨hpa, hal, ?_⟩
  intro b hb hpb
  have hbf : b ∈ (sorted_routes l).filter p :=
    hperm.mem_iff.mpr (List.mem_filter.mpr ⟨hb, hpb⟩)
  rw [ht] at hbf
  rcases List.mem_cons.mp hbf with hba | hbt
  · rw [hba]
  · have hsorted : List.Sorted scoreLE ((sorted_routes l).filter p) :=
      List.Pairwise.sublist (List.filter_sublist _)
        (List.sorted_insertionSort scoreLE l)
    rw [ht] at hsorted
    exact List.rel_of_sorted_cons hsorted b hbt

/-- The head of a tier list is `none` exactly when the tier is empty. -/
theorem tier_head_none_iff (p : RouteAnalysis → Bool)
    (l : List RouteAnalysis) :
    ((sorted_routes l).filter p).head? = none ↔ ∀ b ∈ l, ¬ p b := by
  rw [List.head?_eq_none_iff]
  exact tier_nil_iff p l

/-- Definitional unfolding of the balanced branch of `select_routes`. -/
theorem select_routes_balanced (l : List RouteAnalysis) :
    select_routes .balanced l =
      { low_risk := (green_routes l).head?
        medium_risk := (yellow_routes l).head?
        high_risk :=
          if !(red_routes l).isEmpty
              && ((if (green_routes l).isEmpty then 0 else 1)
                  + (if (yellow_routes l).isEmpty then 0 else 1) < 2) then
            (red_routes l).head?
          else none } :=
  rfl

/-- A non-empty list has `isEmpty = false`. -/
theorem ne_nil_isEmpty_false {α : Type} (l : List α) (h : l ≠ []) :
    l.isEmpty = false := by
  cases l with
  | nil => exact absurd rfl h
  | cons a t => rfl

/-- C6 (amended): for every analyzed candidate set, Balanced selection
keeps a minimal-risk-score candidate from each of the Low and Medium
tiers that has at least one member; a minimal-risk-score High-tier
candidate is kept only when the High tier is non-empty and at most one
of the Low/Medium tiers is non-empty (the source adds red routes only
while fewer than 2 routes are selected) — so a selection never exceeds 2
routes and drops the High tier whenever both other tiers are filled. -/
theorem c6_balanced_best_per_tier (l : List RouteAnalysis) :
    (∀ a, (select_routes .balanced l).low_risk = some a →
      safety_level a = .low_risk ∧ a ∈ l ∧
        ∀ b ∈ l, safety_level b = .low_risk →
          risk_score a ≤ risk_score b) ∧
    ((select_routes .balanced l).low_risk = none ↔
      ∀ b ∈ l, safety_level b ≠ .low_risk) ∧
    (∀ a, (select_routes .balanced l).medium_risk = some a →
      safety_level a = .medium_risk ∧ a ∈ l ∧
        ∀ b ∈ l, safety_level b = .medium_risk →
          risk_score a ≤ risk_score b) ∧
    ((select_routes .balanced l).medium_risk = none ↔
      ∀ b ∈ l, safety_level b ≠ .medium_risk) ∧
    (∀ a, (select_routes .balanced l).high_risk = some a →
      safety_level a = .high_risk ∧ a ∈ l ∧
        ∀ b ∈ l, safety_level b = .high_risk →
          risk_score a ≤ risk_score b) ∧
    ((select_routes .balanced l).high_risk = none ↔
      ((∀ b ∈ l, safety_level b ≠ .high_risk) ∨
       ((∃ b ∈ l, safety_level b = .low_risk) ∧
        (∃ b ∈ l, safety_level b = .medium_risk)))) := by
  rw [select_routes_balanced]
  dsimp only
  refine ⟨?_, ?_, ?_, ?_, ?_, ?_⟩
  · intro a ha
    obtain ⟨hpa, hal, hmin⟩ := tier_head_min _ l a ha
    exact ⟨of_decide_eq_true hpa, hal,
      fun b hb hsb => hmin b hb (decide_eq_true hsb)⟩
  · rw [show green_routes l = (sorted_routes l).filter
        (fun r => decide (safety_level r = .low_risk)) from rfl,
      tier_head_none_iff]
    constructor
    · intro h b hb hsb
      exact h b hb (decide_eq_true hsb)
    · intro h b hb hpb
      exact h b hb (of_decide_eq_true hpb)
  · intro a ha
    obtain ⟨hpa, hal, hmin⟩ := tier_head_min _ l a ha
    exact ⟨of_decide_eq_true hpa, hal,
      fun b hb hsb => hmin b hb (decide_eq_true hsb)⟩
  · rw [show yellow_routes l = (sorted_routes l).filter
        (fun r => decide (safety_level r = .medium_risk)) from rfl,
      tier_head_none_iff]
    constructor
    · intro h b hb hsb
      exact h b hb (decide_eq_true hsb)
    · intro h b hb hpb
      exact h b hb (of_decide_eq_true hpb)
  · intro a ha
    by_cases hc : (!(red_routes l).isEmpty
        && decide ((if (green_routes l).isEmpty then 0 else 1)
            + (if (yellow_routes l).isEmpty then 0 else 1) < 2)) = true
    · rw [if_pos hc] at ha
      obtain ⟨hpa, hal, hmin⟩ := tier_head_min _ l a ha
      exact ⟨of_decide_eq_true hpa, hal,
        fun b hb hsb => hmin b hb (decide_eq_true hsb)⟩
    · rw [if_neg hc] at ha
      exact absurd ha (by simp)
  · constructor
    · intro h
      by_cases hrs : red_routes l = []
      · left
        intro b hb hsb
        exact ((tier_nil_iff _ l).mp hrs) b hb (decide_eq_true hsb)
      · right
        have hrsE : (red_routes l).isEmpty = false :=
          ne_nil_isEmpty_false _ hrs
        by_cases hc : (!(red_routes l).isEmpty
            && decide ((if (green_routes l).isEmpty then 0 else 1)
                + (if (yellow_routes l).isEmpty then 0 else 1) < 2)) = true
        · rw [if_pos hc] at h
          rw [List.head?_eq_none_iff] at h
          exact absurd h hrs
        · simp only [hrsE, Bool.not_false, Bool.true_and,
            decide_eq_true_eq, not_lt] at hc
          by_cases hg : (green_routes l).isEmpty = true
          · rw [if_pos hg] at hc
            by_cases hy : (yellow_routes l).isEmpty = true
            · rw [if_pos hy] at hc
              omega
            · rw [if_neg hy] at hc
              omega
          · by_cases hy : (yellow_routes l).isEmpty = true
            · rw [if_pos hy, if_neg hg] at hc
              omega
            · have hgne : green_routes l ≠ [] := by
                intro h0
                exact hg (by rw [h0]; rfl)
              have hyne : yellow_routes l ≠ [] := by
                intro h0
                exact hy (by rw [h0]; rfl)
              constructor
              · have hne : ¬ ∀ b ∈ l,
                    ¬ (fun r => decide (safety_level r = .low_risk)) b :=
                  fun hall => hgne ((tier_nil_iff _ l).mpr hall)
                push_neg at hne
                obtain ⟨b, hb, hpb⟩ := hne
                exact ⟨b, hb, of_decide_eq_true hpb⟩
              · have hne : ¬ ∀ b ∈ l,
                    ¬ (fun r => decide (safety_level r = .medium_risk)) b :=
                  fun hall => hyne ((tier_nil_iff _ l).mpr hall)
                push_neg at hne
                obtain ⟨b, hb, hpb⟩ := hne
                exact ⟨b, hb, of_decide_eq_true hpb⟩
    · intro h
      rcases h with hno | ⟨⟨bg, hbg, hbgs⟩, ⟨bm, hbm, hbms⟩⟩
      · have hrs : red_routes l = [] :=
          (tier_nil_iff _ l).mpr
            (fun b hb hpb => hno b hb (of_decide_eq_true hpb))
        rw [hrs]
        simp
      · have hgne : green_routes l ≠ [] := by
          intro h0
          exact ((tier_nil_iff _ l).mp h0) bg hbg (decide_eq_true hbgs)
        have hmne : yellow_routes l ≠ [] := by
          intro h0
          exact ((tier_nil_iff _ l).mp h0) bm hbm (decide_eq_true hbms)
        rw [ne_nil_isEmpty_false _ hgne, ne_nil_isEmpty_false _ hmne]
        simp

/-- Incident set for the C6 counterexample: one high-severity incident
at the origin. -/
def c6df : List CrimeRecord := [⟨0, 0, 0⟩]

/-- A route far from the incident: classified Low risk. -/
def c6routeA : List GeoPoint := [((1:ℚ), 1)]

/-- A 10-point route with one point at the incident (10% high
exposure): classified Medium risk. -/
def c6routeB : List GeoPoint :=
  [((0:ℚ), 0), ((1:ℚ), 1), ((1:ℚ), 1), ((1:ℚ), 1), ((1:ℚ), 1),
   ((1:ℚ), 1), ((1:ℚ), 1), ((1:ℚ), 1), ((1:ℚ), 1), ((1:ℚ), 1)]

/-- A 10-point route with two points at the incident (20% high
exposure): classified High risk. -/
def c6routeC : List GeoPoint :=
  [((0:ℚ), 0), ((0:ℚ), 0), ((1:ℚ), 1), ((1:ℚ), 1), ((1:ℚ), 1),
   ((1:ℚ), 1), ((1:ℚ), 1), ((1:ℚ), 1), ((1:ℚ), 1), ((1:ℚ), 1)]

/-- The exposure profile of `c6routeA` against `c6df`. -/
def c6profileA : ExposureProfile :=
  ⟨0, 0, 1, 1, 0, 0, 100, 0, .low_risk⟩

/-- The exposure profile of `c6routeB` against `c6df`. -/
def c6profileB : ExposureProfile :=
  ⟨1, 0, 9, 10, 10, 0, 90, 3, .medium_risk⟩

/-- The exposure profile of `c6routeC` against `c6df`. -/
def c6profileC : ExposureProfile :=
  ⟨2, 0, 8, 10, 20, 0, 80, 6, .high_risk⟩

/-- An analyzed candidate set with one member in each of the three
tiers. -/
def c6analyses : List RouteAnalysis :=
  [⟨0, c6routeA, .direct, c6profileA⟩,
   ⟨1, c6routeB, .northern_arc, c6profileB⟩,
   ⟨2, c6routeC, .southern_arc, c6profileC⟩]

/-- C6 counterexample: an analyzed candidate set with one Low, one
Medium and one High candidate (each profile is exactly what the
exposure analyzer computes for its route against `c6df`).  Balanced
selection drops the High tier entirely — its `high_risk` slot is `none`
although the tier is non-empty — because the source keeps a red route
only while fewer than 2 routes are selected.  So Balanced does not keep
the best candidate of every non-empty tier, and never yields 3 routes. -/
theorem c6_balanced_counterexample :
    calculate_detailed_crime_exposure c6routeA c6df
        defaultProximityThresholds = c6profileA ∧
    calculate_detailed_crime_exposure c6routeB c6df
        defaultProximityThresholds = c6profileB ∧
    calculate_detailed_crime_exposure c6routeC c6df
        defaultProximityThresholds = c6profileC ∧
    red_routes c6analyses ≠ [] ∧
    (select_routes .balanced c6analyses).high_risk = none := by
  refine ⟨?_, ?_, ?_, ?_, ?_⟩
  · norm_num [calculate_detailed_crime_exposure, isHighSeg, isMediumSeg,
      isSafeSeg, withinRadius, clusterPoints, utils_risk_level, c6routeA,
      c6df, c6profileA, defaultProximityThresholds, List.countP_cons,
      List.countP_nil]
  · norm_num [calculate_detailed_crime_exposure, isHighSeg, isMediumSeg,
      isSafeSeg, withinRadius, clusterPoints, utils_risk_level, c6routeB,
      c6df, c6profileB, defaultProximityThresholds, List.countP_cons,
      List.countP_nil]
  · norm_num [calculate_detailed_crime_exposure, isHighSeg, isMediumSeg,
      isSafeSeg, withinRadius, clusterPoints, utils_risk_level, c6routeC,
      c6df, c6profileC, defaultProximityThresholds, List.countP_cons,
      List.countP_nil]
  · decide
  · decide

/-- C6 witness: the balanced-selection characterization instantiated at
the concrete three-tier candidate set. -/
theorem c6_balanced_best_per_tier_witness :
    (∀ a, (select_routes .balanced c6analyses).low_risk = some a →
      safety_level a = .low_risk ∧ a ∈ c6analyses ∧
        ∀ b ∈ c6analyses, safety_level b = .low_risk →
          risk_score a ≤ risk_score b) ∧
    ((select_routes .balanced c6analyses).low_risk = none ↔
      ∀ b ∈ c6analyses, safety_level b ≠ .low_risk) ∧
    (∀ a, (select_routes .balanced c6analyses).medium_risk = some a →
      safety_level a = .medium_risk ∧ a ∈ c6analyses ∧
        ∀ b ∈ c6analyses, safety_level b = .medium_risk →
          risk_score a ≤ risk_score b) ∧
    ((select_routes .balanced c6analyses).medium_risk = none ↔
      ∀ b ∈ c6analyses, safety_level b ≠ .medium_risk) ∧
    (∀ a, (select_routes .balanced c6analyses).high_risk = some a →
      safety_level a = .high_risk ∧ a ∈ c6analyses ∧
        ∀ b ∈ c6analyses, safety_level b = .high_risk →
          risk_score a ≤ risk_score b) ∧
    ((select_routes .balanced c6analyses).high_risk = none ↔
      ((∀ b ∈ c6analyses, safety_level b ≠ .high_risk) ∨
       ((∃ b ∈ c6analyses, safety_level b = .low_risk) ∧
        (∃ b ∈ c6analyses, safety_level b = .medium_risk)))) :=
  c6_balanced_best_per_tier c6analyses

end CrimeSafetyApp
